import Mathlib

/-!
Verification of the Solamagic BLE heater integration
(custom_components/solamagic): a shallow embedding of the
session/protocol engine in `client.py`, `bluetooth.py` and `const.py`,
together with theorems settling the specification's claims about it.

Bytes are modelled as `Nat`, byte strings as `List Nat`, wall-clock
times (Python `time.time()` values) as `ℚ`, and the effectful parts of
the code as explicit state-passing functions or as event traces.
-/

namespace Solamagic

/-! ## Protocol constants, from `const.py` -/

def HANDLE_CMD : Nat := 0x0028

def HANDLE_NTF1 : Nat := 0x002F

def HANDLE_NTF2 : Nat := 0x0032

def HANDLE_INIT : Nat := 0x001F

def INIT_PAYLOAD : List Nat := [0xFF, 0xFF, 0xFF, 0xFD, 0x94, 0x34, 0x00, 0x00, 0x00]

def CCCD_NTF1 : Nat := 0x0030

def CCCD_NTF2 : Nat := 0x0033

def CCCD_CMD : Nat := 0x0029

def CMD_OFF : List Nat := [0x00, 0x21]

def CMD_ON_33 : List Nat := [0x01, 0x21]

def CMD_ON_66 : List Nat := [0x01, 0x42]

def CMD_ON_100 : List Nat := [0x01, 0x64]

def STATUS_MIN_LENGTH : Nat := 17

def STATUS_POWER_BYTE : Nat := 15

def STATUS_LEVEL_BYTE : Nat := 16

def DISCONNECT_TIMEOUT : Nat := 180

/-! ## Status parsing, from `SolamagicBleClient._parse_status` -/

/-- Embedding of `SolamagicBleClient._parse_status` (bluetooth.py).
Returns `none` for too-short payloads, reads byte 15 as power and
byte 16 as level, and maps the recognised combinations to a
percentage. -/
def parse_status (data : List Nat) : Option Nat :=
  if data.length < STATUS_MIN_LENGTH then none
  else
    let power := data.getD STATUS_POWER_BYTE 0
    let level := data.getD STATUS_LEVEL_BYTE 0
    if power = 0x00 then some 0
    else if power = 0x01 then
      if level = 0x21 then some 33
      else if level = 0x42 then some 66
      else if level = 0x64 then some 100
      else none
    else none

/-! ## Notification classification, from
`SolamagicBleClient._notification_handler` -/

/-- The four classes a raw notification can fall into, per the
length-based branching of `_notification_handler`. -/
inductive NotificationClass where
  | Confirmation (data : List Nat)
  | StatusReport (level : Nat)
  | StatusByte (data : List Nat)
  | Unclassified (data : List Nat)
deriving DecidableEq

/-- Embedding of the classification branching of
`SolamagicBleClient._notification_handler` (bluetooth.py): the
`sender` argument is received but never inspected; the branches test
only `len(data)`. -/
def classify_notification (_sender : Nat) (data : List Nat) : NotificationClass :=
  if data.length = 2 then .Confirmation data
  else if 15 ≤ data.length then
    match parse_status data with
    | some level => .StatusReport level
    | none => .Unclassified data
  else if data.length = 3 then .StatusByte data
  else .Unclassified data

/-- C5: `_parse_status` returns `none` below 17 bytes; otherwise it
reads byte 15 as power and byte 16 as level, returns 0 for power 0x00,
maps levels 0x21/0x42/0x64 to 33/66/100 under power 0x01, and returns
`none` for every other power/level combination. -/
theorem C5_decode_status (d : List Nat) :
    (d.length < 17 → parse_status d = none) ∧
    (17 ≤ d.length → d.getD 15 0 = 0x00 → parse_status d = some 0) ∧
    (17 ≤ d.length → d.getD 15 0 = 0x01 → d.getD 16 0 = 0x21 → parse_status d = some 33) ∧
    (17 ≤ d.length → d.getD 15 0 = 0x01 → d.getD 16 0 = 0x42 → parse_status d = some 66) ∧
    (17 ≤ d.length → d.getD 15 0 = 0x01 → d.getD 16 0 = 0x64 → parse_status d = some 100) ∧
    (17 ≤ d.length → d.getD 15 0 = 0x01 →
      d.getD 16 0 ≠ 0x21 → d.getD 16 0 ≠ 0x42 → d.getD 16 0 ≠ 0x64 →
      parse_status d = none) ∧
    (17 ≤ d.length → d.getD 15 0 ≠ 0x00 → d.getD 15 0 ≠ 0x01 →
      parse_status d = none) := by
  refine ⟨?_, ?_, ?_, ?_, ?_, ?_, ?_⟩ <;>
    · intros
      simp only [parse_status, STATUS_MIN_LENGTH, STATUS_POWER_BYTE, STATUS_LEVEL_BYTE]
      split <;> simp_all <;> omega

/-- Closed-form check exercising every hypothesis of
`C5_decode_status` on concrete payloads. -/
theorem C5_decode_status_witness :
    parse_status [1, 2, 3] = none ∧
    parse_status [20, 32, 3, 126, 0, 0, 0, 0, 0, 0, 0, 0, 0, 0, 33, 0x00, 0x21] = some 0 ∧
    parse_status [20, 32, 3, 126, 0, 0, 0, 0, 0, 0, 0, 0, 0, 0, 33, 0x01, 0x21] = some 33 ∧
    parse_status [20, 32, 3, 126, 0, 0, 0, 0, 0, 0, 0, 0, 0, 0, 33, 0x01, 0x42] = some 66 ∧
    parse_status [20, 32, 3, 126, 0, 0, 0, 0, 0, 0, 0, 0, 0, 0, 33, 0x01, 0x64] = some 100 ∧
    parse_status [20, 32, 3, 126, 0, 0, 0, 0, 0, 0, 0, 0, 0, 0, 33, 0x01, 0x55] = none ∧
    parse_status [20, 32, 3, 126, 0, 0, 0, 0, 0, 0, 0, 0, 0, 0, 33, 0x02, 0x21] = none := by
  refine ⟨(C5_decode_status _).1 (by decide),
    (C5_decode_status _).2.1 (by decide) (by decide),
    (C5_decode_status _).2.2.1 (by decide) (by decide) (by decide),
    (C5_decode_status _).2.2.2.1 (by decide) (by decide) (by decide),
    (C5_decode_status _).2.2.2.2.1 (by decide) (by decide) (by decide),
    (C5_decode_status _).2.2.2.2.2.1 (by decide) (by decide) (by decide) (by decide) (by decide),
    (C5_decode_status _).2.2.2.2.2.2 (by decide) (by decide) (by decide)⟩

/-- C7: classification of a notification depends only on payload
length, never on the source handle; length 2 is a confirmation,
length at least 15 is a status report exactly when `_parse_status`
yields a value and unclassified otherwise, length 3 is a diagnostic
status byte, and every other length is unclassified. -/
theorem C7_classification (s₁ s₂ : Nat) (d : List Nat) :
    (classify_notification s₁ d = classify_notification s₂ d) ∧
    (d.length = 2 → classify_notification s₁ d = .Confirmation d) ∧
    (15 ≤ d.length → ∀ v, parse_status d = some v →
      classify_notification s₁ d = .StatusReport v) ∧
    (15 ≤ d.length → parse_status d = none →
      classify_notification s₁ d = .Unclassified d) ∧
    (d.length = 3 → classify_notification s₁ d = .StatusByte d) ∧
    (d.length ≠ 2 → d.length < 15 → d.length ≠ 3 →
      classify_notification s₁ d = .Unclassified d) := by
  refine ⟨rfl, ?_, ?_, ?_, ?_, ?_⟩ <;>
    · intros
      simp only [classify_notification]
      split <;> simp_all

/-- Closed-form check exercising every hypothesis of
`C7_classification` on concrete payloads. -/
theorem C7_classification_witness :
    classify_notification 0x0028 [0x01, 0x21] = .Confirmation [0x01, 0x21] ∧
    classify_notification 0x0032
      [20, 32, 3, 126, 0, 0, 0, 0, 0, 0, 0, 0, 0, 0, 33, 0x01, 0x42]
      = .StatusReport 66 ∧
    classify_notification 0x0032
      [0, 0, 0, 0, 0, 0, 0, 0, 0, 0, 0, 0, 0, 0, 0]
      = .Unclassified [0, 0, 0, 0, 0, 0, 0, 0, 0, 0, 0, 0, 0, 0, 0] ∧
    classify_notification 0x002F [9, 9, 9] = .StatusByte [9, 9, 9] ∧
    classify_notification 0x0028 [1, 2, 3, 4] = .Unclassified [1, 2, 3, 4] := by
  refine ⟨(C7_classification 0x0028 0 _).2.1 (by decide),
    (C7_classification 0x0032 0 _).2.2.1 (by decide) 66 (by decide),
    (C7_classification 0x0032 0 _).2.2.2.1 (by decide) (by decide),
    (C7_classification 0x002F 0 _).2.2.2.2.1 (by decide),
    (C7_classification 0x0028 0 _).2.2.2.2.2 (by decide) (by decide) (by decide)⟩

/-! ## Stale-status suppression, from
`SolamagicBleClient.set_expected_level` and the status branch of
`_notification_handler` -/

/-- Embedding of `SolamagicBleClient.set_expected_level` (bluetooth.py):
records the commanded level and the current time. Returns the new
`(_expected_level, _expected_level_time)` pair. -/
def set_expected_level (level : Nat) (now : ℚ) : Option Nat × ℚ :=
  (some level, now)

/-- Embedding of the stale-suppression logic in the status branch of
`_notification_handler` (bluetooth.py): given the stored
`_expected_level` and `_expected_level_time`, the current time, and a
successfully parsed level, returns whether the report is delivered to
the status callback and the new `_expected_level`. A report is dropped
when an expectation is armed, less than one second old, and the level
differs from it; otherwise the expectation is cleared when the level
matches or the window has elapsed, and the report is delivered. -/
def handle_status_report (expected : Option Nat) (expectedTime now : ℚ) (level : Nat) :
    Bool × Option Nat :=
  let timeSince := now - expectedTime
  if expected.isSome = true ∧ timeSince < 1 ∧ some level ≠ expected then
    (false, expected)
  else
    (true, if some level = expected ∨ 1 ≤ timeSince then none else expected)

/-- C4: with expectation `(X, T)` armed, a report of `Y ≠ X` arriving
before `T + 1` is suppressed and the expectation kept; a report equal
to `X` is delivered and clears the expectation; any report arriving at
or after `T + 1` is delivered and clears the expectation. -/
theorem C4_stale_suppression (X Y : Nat) (T now : ℚ) :
    (now - T < 1 → Y ≠ X →
      handle_status_report (set_expected_level X T).1 (set_expected_level X T).2 now Y
        = (false, some X)) ∧
    (handle_status_report (set_expected_level X T).1 (set_expected_level X T).2 now X
        = (true, none)) ∧
    (1 ≤ now - T →
      handle_status_report (set_expected_level X T).1 (set_expected_level X T).2 now Y
        = (true, none)) := by
  refine ⟨fun hlt hne => ?_, ?_, fun hge => ?_⟩
  · simp only [set_expected_level, handle_status_report]
    split <;> simp_all
  · simp only [set_expected_level, handle_status_report]
    split <;> simp_all
  · have hnl : ¬(now - T < 1) := not_lt.mpr hge
    simp only [set_expected_level, handle_status_report]
    split <;> simp_all

/-- Closed-form check of `C4_stale_suppression`: a command for level 33
at time 0; a report of 66 at time 1/2 is suppressed, a report of 33 is
delivered and clears, a report of 66 at time 3/2 is delivered and
clears. -/
theorem C4_stale_suppression_witness :
    handle_status_report (some 33) 0 (1/2) 66 = (false, some 33) ∧
    handle_status_report (some 33) 0 (1/2) 33 = (true, none) ∧
    handle_status_report (some 33) 0 (3/2) 66 = (true, none) :=
  ⟨(C4_stale_suppression 33 66 0 (1/2)).1 (by norm_num) (by norm_num),
   (C4_stale_suppression 33 66 0 (1/2)).2.1,
   (C4_stale_suppression 33 66 0 (3/2)).2.2 (by norm_num)⟩

/-! ## Init-token selection, from
`SolamagicBleClient.write_init_sequence` -/

/-- Python truthiness of an optional byte string: `None` and the empty
byte string are falsy. -/
def truthyBytes : Option (List Nat) → Bool
  | none => false
  | some l => !l.isEmpty

/-- Python expression `read_value and all(b == 0x00 for b in read_value)`
reduced to a Bool: true iff the byte string is non-empty and all-zero. -/
def all_zero_py (l : List Nat) : Bool := !l.isEmpty && l.all (· = 0)

/-- Embedding of the token-selection branching of
`SolamagicBleClient.write_init_sequence` (bluetooth.py). A failed read
is modelled by the empty list, exactly as the code sets
`read_value = b""` in its except branch. -/
def select_init_value (read_value : List Nat) (fallback : Option (List Nat)) : List Nat :=
  if all_zero_py read_value && truthyBytes fallback then fallback.getD []
  else if !read_value.isEmpty then read_value
  else if truthyBytes fallback && !(read_value == fallback.getD []) then fallback.getD []
  else INIT_PAYLOAD

/-- C6 counterexample: when nothing could be read (empty read) but a
cached fallback token exists, `write_init_sequence` writes the
fallback token, not the static `INIT_PAYLOAD` — refuting the claim
that an empty read always leads to `INIT_PAYLOAD`. -/
theorem C6_counterexample :
    select_init_value [] (some [1, 2, 3, 4, 5, 6, 7, 8, 9])
      = [1, 2, 3, 4, 5, 6, 7, 8, 9] ∧
    [1, 2, 3, 4, 5, 6, 7, 8, 9] ≠ INIT_PAYLOAD := by
  decide

/-- C6 amended: an all-zero read with a cached fallback selects the
fallback; a non-empty, not-all-zero read is echoed back; an empty read
selects the cached fallback when one exists, and the static
`INIT_PAYLOAD` only when there is no (non-empty) fallback. -/
theorem C6_token_selection (rv : List Nat) (fb : Option (List Nat)) :
    (all_zero_py rv = true → truthyBytes fb = true →
      select_init_value rv fb = fb.getD []) ∧
    (rv ≠ [] → all_zero_py rv = false → select_init_value rv fb = rv) ∧
    (rv = [] → truthyBytes fb = true → select_init_value rv fb = fb.getD []) ∧
    (rv = [] → truthyBytes fb = false → select_init_value rv fb = INIT_PAYLOAD) := by
  refine ⟨fun h1 h2 => ?_, fun h1 h2 => ?_, fun h1 h2 => ?_, fun h1 h2 => ?_⟩ <;>
    · subst_vars
      cases fb <;> simp_all [select_init_value, truthyBytes, all_zero_py]
      try simp_all [List.isEmpty_iff]

/-- Closed-form check exercising every hypothesis of
`C6_token_selection` on concrete reads and fallbacks. -/
theorem C6_token_selection_witness :
    select_init_value [0, 0, 0, 0, 0, 0, 0, 0, 0] (some [1, 2, 3, 4, 5, 6, 7, 8, 9])
      = [1, 2, 3, 4, 5, 6, 7, 8, 9] ∧
    select_init_value [7, 0, 0, 0, 0, 0, 0, 0, 9] none = [7, 0, 0, 0, 0, 0, 0, 0, 9] ∧
    select_init_value [] (some [5, 5, 5, 5, 5, 5, 5, 5, 5]) = [5, 5, 5, 5, 5, 5, 5, 5, 5] ∧
    select_init_value [] none = INIT_PAYLOAD := by
  refine ⟨?_, ?_, ?_, ?_⟩
  · exact ((C6_token_selection _ _).1 (by decide) (by decide)).trans (by decide)
  · exact (C6_token_selection _ _).2.1 (by decide) (by decide)
  · exact ((C6_token_selection _ _).2.2.1 (by decide) (by decide)).trans (by decide)
  · exact (C6_token_selection _ _).2.2.2 (by decide) (by decide)

/-! ## Initialization handshake trace, from
`SolamagicClient._ensure_initialized`, `SolamagicBleClient._ensure_connected`,
`write_init_sequence` and `write_cccd` -/

/-- Wire-visible events of a handshake run. A `startNotify` is the
transport-level notification subscription performed by
`_ensure_connected`; a `cccdWrite` is an explicit descriptor write
performed by `write_cccd` (its `ok` flag records whether the write
succeeded; failures are logged and swallowed). -/
inductive InitEvent where
  | connectEvt
  | startNotify (handle : Nat)
  | readInit (ok : Bool)
  | writeInit (handle : Nat) (value : List Nat)
  | cccdWrite (handle : Nat) (ok : Bool)
  | sleepEvt (ms : Nat)
deriving DecidableEq

/-- Embedding of `SolamagicBleClient._ensure_connected` (bluetooth.py)
as the events it performs: nothing when already connected, otherwise a
connect followed by `start_notify` on the command and the two status
handles. -/
def ensure_connected_trace (alreadyConnected : Bool) : List InitEvent :=
  if alreadyConnected then []
  else
    [.connectEvt, .sleepEvt 300,
     .startNotify HANDLE_CMD, .startNotify HANDLE_NTF1, .startNotify HANDLE_NTF2]

/-- Embedding of `SolamagicBleClient.write_init_sequence` (bluetooth.py)
as the events it performs: ensure connected, read the init handle
(a failed read yields the empty byte string), then write the selected
token back to handle 0x001F. -/
def write_init_sequence_trace (alreadyConnected readOk : Bool)
    (readVal : List Nat) (fallback : Option (List Nat)) : List InitEvent :=
  ensure_connected_trace alreadyConnected
    ++ [.readInit readOk,
        .writeInit HANDLE_INIT (select_init_value (if readOk then readVal else []) fallback)]

/-- Embedding of `SolamagicClient._ensure_initialized` (client.py) on a
fresh, not-yet-initialized session, as the events it performs:
`write_init_sequence`, then — when the init write did not raise — the
three CCCD writes in source order 0x0030, 0x0033, 0x0029, each wrapped
in its own try/except so a failure (`f₁`, `f₂`, `f₃`) never stops the
sequence. -/
def ensure_initialized_trace (alreadyConnected readOk initWriteOk : Bool)
    (readVal : List Nat) (fallback : Option (List Nat)) (f₁ f₂ f₃ : Bool) :
    List InitEvent :=
  write_init_sequence_trace alreadyConnected readOk readVal fallback
    ++ (if initWriteOk then
          [.sleepEvt 50, .cccdWrite CCCD_NTF1 (!f₁),
           .sleepEvt 50, .cccdWrite CCCD_NTF2 (!f₂),
           .sleepEvt 50, .cccdWrite CCCD_CMD (!f₃),
           .sleepEvt 100]
        else [])

/-- Handles of the CCCD writes occurring in a trace, in order. -/
def cccdHandles (t : List InitEvent) : List Nat :=
  t.filterMap fun e =>
    match e with
    | .cccdWrite h _ => some h
    | _ => none

/-- C2: in every run of the initialization handshake the unlock write
to handle 0x001F occurs, no CCCD write precedes it, and — whenever the
handshake reaches the CCCD stage — the CCCD writes occur in the order
0x0030, 0x0033, 0x0029, so the command-channel CCCD is last among the
three, for every combination of CCCD-write failures. -/
theorem C2_handshake_order (ac readOk initWriteOk : Bool) (rv : List Nat)
    (fb : Option (List Nat)) (f₁ f₂ f₃ : Bool) :
    (∃ pre post,
      ensure_initialized_trace ac readOk initWriteOk rv fb f₁ f₂ f₃
        = pre ++ InitEvent.writeInit HANDLE_INIT
            (select_init_value (if readOk then rv else []) fb) :: post
      ∧ cccdHandles pre = []) ∧
    (initWriteOk = true →
      cccdHandles (ensure_initialized_trace ac readOk initWriteOk rv fb f₁ f₂ f₃)
        = [CCCD_NTF1, CCCD_NTF2, CCCD_CMD]) := by
  constructor
  · refine ⟨ensure_connected_trace ac ++ [.readInit readOk],
      (if initWriteOk then
          [.sleepEvt 50, .cccdWrite CCCD_NTF1 (!f₁),
           .sleepEvt 50, .cccdWrite CCCD_NTF2 (!f₂),
           .sleepEvt 50, .cccdWrite CCCD_CMD (!f₃),
           .sleepEvt 100]
        else []), ?_, ?_⟩
    · simp [ensure_initialized_trace, write_init_sequence_trace]
    · cases ac <;> simp [ensure_connected_trace, cccdHandles]
  · intro h
    subst h
    cases ac <;>
      simp [ensure_initialized_trace, write_init_sequence_trace,
        ensure_connected_trace, cccdHandles]

/-- Closed-form check of `C2_handshake_order` with the init write
succeeding and the first two CCCD writes failing: the CCCD order is
still 0x0030, 0x0033, 0x0029. -/
theorem C2_handshake_order_witness :
    cccdHandles (ensure_initialized_trace false true true
        [1, 2, 3, 4, 5, 6, 7, 8, 9] none true true false)
      = [CCCD_NTF1, CCCD_NTF2, CCCD_CMD] :=
  (C2_handshake_order false true true [1, 2, 3, 4, 5, 6, 7, 8, 9]
    none true true false).2 rfl

/-! ## Handshake outcome, from `SolamagicClient._ensure_initialized`
and `SolamagicBleClient.write_cccd` -/

/-- Outcome of one `write_cccd` call: descriptor write succeeded, the
char-write fallback succeeded, or both methods failed — in which case
the code logs a warning and deliberately does not raise. -/
inductive CccdOutcome where
  | descOk
  | charOk
  | bothFailedLogged
deriving DecidableEq

/-- Embedding of `SolamagicBleClient.write_cccd` (bluetooth.py): try
the descriptor write; on failure try the characteristic write; on
failure of both, log a warning and return normally. -/
def write_cccd_outcome (descFails charFails : Bool) : CccdOutcome :=
  if !descFails then .descOk
  else if !charFails then .charOk
  else .bothFailedLogged

/-- Result of running `_ensure_initialized`: the final value of
`SolamagicClient._initialized`, whether an exception propagated to the
caller, and the per-CCCD outcomes of the three `write_cccd` calls. -/
structure HandshakeResult where
  initializedFlag : Bool
  raised : Bool
  outcomes : List (Nat × CccdOutcome)
deriving DecidableEq

/-- Embedding of the outcome of `SolamagicClient._ensure_initialized`
(client.py) on a fresh session: a failed init-token write raises out
of `write_init_sequence` and aborts initialization; otherwise the
three `write_cccd` calls run — each swallowing its own failures — and
`_initialized` is set to true unconditionally. -/
def ensure_initialized_result (initWriteFails d₁ c₁ d₂ c₂ d₃ c₃ : Bool) :
    HandshakeResult :=
  if initWriteFails then
    { initializedFlag := false, raised := true, outcomes := [] }
  else
    { initializedFlag := true, raised := false,
      outcomes :=
        [(CCCD_NTF1, write_cccd_outcome d₁ c₁),
         (CCCD_NTF2, write_cccd_outcome d₂ c₂),
         (CCCD_CMD, write_cccd_outcome d₃ c₃)] }

/-- C8 counterexample: when both write methods for the
command-confirmation CCCD 0x0029 fail, `_ensure_initialized` still
sets the initialized flag and propagates no error to the caller —
refuting the claim that this failure produces an `InitFailed` error
and prevents the session from becoming Ready. -/
theorem C8_counterexample :
    (ensure_initialized_result false false false false false true true).initializedFlag
      = true ∧
    (ensure_initialized_result false false false false false true true).raised = false ∧
    (CCCD_CMD, CccdOutcome.bothFailedLogged)
      ∈ (ensure_initialized_result false false false false false true true).outcomes := by
  decide

/-- C8 amended: failures of all three CCCD writes — the
command-confirmation CCCD 0x0029 included — are soft: they are logged
and initialization continues to completion; only a failure of the
init-token write raises and prevents the session from becoming
initialized. -/
theorem C8_cccd_failures_soft (initWriteFails d₁ c₁ d₂ c₂ d₃ c₃ : Bool) :
    (ensure_initialized_result initWriteFails d₁ c₁ d₂ c₂ d₃ c₃).raised
      = initWriteFails ∧
    (ensure_initialized_result initWriteFails d₁ c₁ d₂ c₂ d₃ c₃).initializedFlag
      = !initWriteFails := by
  cases initWriteFails <;> simp [ensure_initialized_result]

/-! ## Repeat-write loops, from `SolamagicBleClient.write_handle_any`
and the OFF burst of `SolamagicClient.set_level` -/

/-- Embedding of the loop body of `write_handle_any` (bluetooth.py):
iterate attempts `i, i+1, ...` for the given remaining count. A failed
attempt is logged; only a failure at attempt index 0 re-raises, which
aborts the loop. Returns the number of attempts performed and whether
an exception propagated. -/
def write_attempt_loop (fails : Nat → Bool) : Nat → Nat → Nat × Bool
  | _, 0 => (0, false)
  | i, Nat.succ n =>
      if fails i then
        if i = 0 then (1, true)
        else
          let r := write_attempt_loop fails (i + 1) n
          (r.1 + 1, r.2)
      else
        let r := write_attempt_loop fails (i + 1) n
        (r.1 + 1, r.2)

/-- Embedding of `SolamagicBleClient.write_handle_any` (bluetooth.py):
runs the attempt loop over `range(max(1, repeat))`. -/
def write_handle_any_run (fails : Nat → Bool) (rep : Nat) : Nat × Bool :=
  write_attempt_loop fails 0 (max 1 rep)

/-- Embedding of the OFF burst of `SolamagicClient.set_level 0`
(client.py): 21 separate `write_handle_any` calls, each with
`repeat = 1`; an exception from any call propagates out of the burst
loop and aborts the remaining calls. The list records, per remaining
call, whether its single write attempt fails. -/
def off_burst_list : List Bool → Nat × Bool
  | [] => (0, false)
  | b :: rest =>
      let r := write_handle_any_run (fun _ => b) 1
      if r.2 then (r.1, true)
      else
        let s := off_burst_list rest
        (r.1 + s.1, s.2)

/-- The OFF burst of `set_level 0` with per-write failure behaviour
`failsAt`: write number `j` of the 21 fails iff `failsAt j`. Returns
writes attempted and whether an error propagated to the caller. -/
def set_level_off_run (failsAt : Nat → Bool) : Nat × Bool :=
  off_burst_list ((List.range 21).map failsAt)

/-- From attempt index 1 onwards a failure never re-raises, so the
loop always performs all remaining attempts without error. -/
theorem write_attempt_loop_tail (fails : Nat → Bool) :
    ∀ n i, 1 ≤ i → write_attempt_loop fails i n = (n, false) := by
  intro n
  induction n with
  | zero => intro i _; rfl
  | succ n ih =>
      intro i hi
      have h1 : 1 ≤ i + 1 := by omega
      have hne : ¬i = 0 := by omega
      simp [write_attempt_loop, hne, ih (i + 1) h1]

/-- C9 counterexample: an OFF burst whose second write (a repeat after
the first) fails aborts with an error after 2 attempted writes instead
of continuing with the remaining 19 — refuting the claim that in the
21-write OFF burst only a first-write failure is fatal. -/
theorem C9_counterexample :
    set_level_off_run (fun j => j == 1) = (2, true) ∧ (2 : Nat) < 21 := by
  constructor
  · decide
  · decide

/-- C9 amended: inside one `write_handle_any` call, a failure of the
first attempt raises and aborts the repeat loop after that single
attempt, while failures of later attempts are logged and the loop
performs all `max 1 rep` attempts without error; the 21-write OFF
burst, however, consists of 21 single-attempt calls, so a failure of
write `j + 1` of the burst (for any `j`) raises and aborts the burst
after `j + 1` attempted writes. -/
theorem C9_repeat_loop (fails : Nat → Bool) (rep : Nat) :
    (fails 0 = true → write_handle_any_run fails rep = (1, true)) ∧
    (fails 0 = false → write_handle_any_run fails rep = (max 1 rep, false)) ∧
    (∀ j rest, off_burst_list (List.replicate j false ++ true :: rest)
      = (j + 1, true)) := by
  refine ⟨fun h0 => ?_, fun h0 => ?_, fun j => ?_⟩
  · have : ∃ m, max 1 rep = m + 1 := ⟨max 1 rep - 1, by omega⟩
    obtain ⟨m, hm⟩ := this
    simp [write_handle_any_run, hm, write_attempt_loop, h0]
  · have : ∃ m, max 1 rep = m + 1 := ⟨max 1 rep - 1, by omega⟩
    obtain ⟨m, hm⟩ := this
    simp [write_handle_any_run, hm, write_attempt_loop, h0,
      write_attempt_loop_tail fails m 1 (by omega)]
  · induction j with
    | zero =>
        intro rest
        simp [off_burst_list, write_handle_any_run, write_attempt_loop]
    | succ j ih =>
        intro rest
        have : List.replicate (j + 1) false ++ true :: rest
            = false :: (List.replicate j false ++ true :: rest) := by
          simp [List.replicate_succ]
        rw [this]
        simp [off_burst_list, write_handle_any_run, write_attempt_loop, ih rest]
        omega

/-- Closed-form check exercising the hypotheses of `C9_repeat_loop`:
a repeat-5 call failing on the first attempt stops at one attempt with
an error; a repeat-5 call failing only on attempt 2 performs all five
attempts with no error; an OFF burst failing on write 4 aborts after
four writes. -/
theorem C9_repeat_loop_witness :
    write_handle_any_run (fun _ => true) 5 = (1, true) ∧
    write_handle_any_run (fun i => i == 2) 5 = (5, false) ∧
    off_burst_list (List.replicate 3 false ++ true :: List.replicate 17 false)
      = (4, true) := by
  refine ⟨(C9_repeat_loop (fun _ => true) 5).1 rfl, ?_, ?_⟩
  · have h := (C9_repeat_loop (fun i => i == 2) 5).2.1 rfl
    simpa using h
  · exact (C9_repeat_loop (fun _ => false) 1).2.2 3 (List.replicate 17 false)

/-! ## Level-setting commands, from `SolamagicClient.set_level` -/

/-- Events performed by `set_level` after initialization: GATT writes,
mandated delays, and the unconditional status-callback delivery. -/
inductive CmdEvent where
  | write (handle : Nat) (data : List Nat) (response : Bool)
  | sleepMs (ms : Nat)
  | statusCb (level : Nat)
deriving DecidableEq

/-- Events of one `write_handle_any` call on the success path: one
write per iteration of `range(max(1, repeat))`. -/
def write_handle_any_events (handle : Nat) (data : List Nat) (resp : Bool)
    (rep : Nat) : List CmdEvent :=
  (List.range (max 1 rep)).map fun _ => .write handle data resp

/-- Embedding of `SolamagicClient.set_level` (client.py) on an
initialized session with a status callback registered, as the events
it performs; `none` models the `ValueError` raised for a percentage
outside {0, 33, 66, 100}. For 0, 21 single-write `write_handle_any`
calls to handle 0x0028 with `CMD_OFF`, `response=False`, each followed
by a 16 ms sleep; for 33/66/100 one such call with the corresponding
command; in all cases a 200 ms wait and then the commanded percentage
delivered to the status callback. -/
def set_level_trace (pct : Nat) : Option (List CmdEvent) :=
  if pct ≠ 0 ∧ pct ≠ 33 ∧ pct ≠ 66 ∧ pct ≠ 100 then none
  else if pct = 0 then
    some ((((List.range 21).map fun _ =>
        write_handle_any_events HANDLE_CMD CMD_OFF false 1 ++ [.sleepMs 16]).flatten)
      ++ [.sleepMs 200, .statusCb 0])
  else if pct = 33 then
    some (write_handle_any_events HANDLE_CMD CMD_ON_33 false 1
      ++ [.sleepMs 200, .statusCb 33])
  else if pct = 66 then
    some (write_handle_any_events HANDLE_CMD CMD_ON_66 false 1
      ++ [.sleepMs 200, .statusCb 66])
  else
    some (write_handle_any_events HANDLE_CMD CMD_ON_100 false 1
      ++ [.sleepMs 200, .statusCb 100])

/-- The GATT writes of a command trace, in order. -/
def writesOf (t : List CmdEvent) : List (Nat × List Nat × Bool) :=
  t.filterMap fun e =>
    match e with
    | .write h d r => some (h, d, r)
    | _ => none

/-- C3: on an initialized session, `set_level 0` issues exactly 21
fire-and-forget writes of the OFF command `[0x00, 0x21]` to the
command handle, each followed by the 16 ms spacing sleep, while
`set_level` of 33, 66 and 100 issues exactly one write of
`[0x01, 0x21]`, `[0x01, 0x42]` and `[0x01, 0x64]` respectively. -/
theorem C3_set_level_commands :
    (set_level_trace 0).map writesOf
      = some (List.replicate 21 (HANDLE_CMD, CMD_OFF, false)) ∧
    (set_level_trace 0).map (fun t => t.count (CmdEvent.sleepMs 16)) = some 21 ∧
    (set_level_trace 33).map writesOf = some [(HANDLE_CMD, CMD_ON_33, false)] ∧
    (set_level_trace 66).map writesOf = some [(HANDLE_CMD, CMD_ON_66, false)] ∧
    (set_level_trace 100).map writesOf = some [(HANDLE_CMD, CMD_ON_100, false)] ∧
    set_level_trace 50 = none := by
  refine ⟨?_, ?_, ?_, ?_, ?_, ?_⟩ <;> decide

/-! ## Session lifecycle state, from `SolamagicBleClient` attributes,
`disconnect`, `_auto_disconnect`, `_handle_disconnect` and
`SolamagicClient.disconnect` -/

/-- State of the BLE layer: whether `_client` holds a reference,
whether that client reports connected, and whether the auto-disconnect
timer is armed. -/
structure BleState where
  clientSet : Bool
  isConnected : Bool
  timerArmed : Bool
deriving DecidableEq

/-- Python expression `self._client and self._client.is_connected`. -/
def connectedNow (s : BleState) : Bool := s.clientSet && s.isConnected

/-- Combined state of `SolamagicClient` (the `_initialized` flag) and
its `SolamagicBleClient`. -/
structure ClientState where
  initialized : Bool
  ble : BleState
deriving DecidableEq

/-- Embedding of the guard of `SolamagicClient._ensure_initialized`
(client.py): the handshake runs on the next operation iff
`_initialized` is false. -/
def runs_handshake (s : ClientState) : Bool := !s.initialized

/-- Result of `SolamagicBleClient.disconnect`: the new BLE state,
whether an exception propagated to the caller, and whether a transport
error was (only) logged. -/
structure BleDisconnectResult where
  state : BleState
  raised : Bool
  logged : Bool
deriving DecidableEq

/-- Embedding of `SolamagicBleClient.disconnect` (bluetooth.py):
cancel the pending auto-disconnect timer; if a connected client
exists, attempt the transport disconnect inside `try/except Exception`
so a transport failure is logged, never re-raised; finally clear
`_client`. The `SolamagicClient._initialized` flag is not touched. -/
def ble_disconnect (s : BleState) (transportFails : Bool) : BleDisconnectResult :=
  let s₁ : BleState := { s with timerArmed := false }
  if connectedNow s₁ then
    if transportFails then
      { state := { s₁ with clientSet := false }, raised := false, logged := true }
    else
      { state := { s₁ with clientSet := false }, raised := false, logged := false }
  else
    { state := { s₁ with clientSet := false }, raised := false, logged := false }

/-- Embedding of `SolamagicBleClient._auto_disconnect` (bluetooth.py),
run when the idle timer fires: it only awaits `self.disconnect()` on
the BLE layer; `SolamagicClient._initialized` is unreachable from here
and unchanged. -/
def auto_disconnect (s : ClientState) (transportFails : Bool) : ClientState :=
  { s with ble := (ble_disconnect s.ble transportFails).state }

/-- Embedding of `SolamagicBleClient._handle_disconnect` (bluetooth.py),
the transport-reported disconnect callback: cancel the timer and clear
`_client`; `SolamagicClient._initialized` is unchanged. -/
def transport_disconnect (s : ClientState) : ClientState :=
  { s with ble := { s.ble with timerArmed := false, clientSet := false } }

/-- Embedding of `SolamagicClient.disconnect` (client.py): set
`_initialized` to false, then run the BLE-layer disconnect. -/
def client_disconnect (s : ClientState) (transportFails : Bool) : ClientState × Bool :=
  let r := ble_disconnect s.ble transportFails
  ({ initialized := false, ble := r.state }, r.raised)

/-- C1, code bug exhibited: from an initialized, connected session,
the idle-timeout auto-disconnect and the transport-reported disconnect
both leave `_initialized` true — so the next `set_level` skips the
handshake although its connection is gone — whereas only the explicit
`SolamagicClient.disconnect` resets the flag as the claim requires of
all three transitions. -/
theorem C1_disconnect_keeps_init_flag :
    (auto_disconnect ⟨true, ⟨true, true, true⟩⟩ false).initialized = true ∧
    connectedNow (auto_disconnect ⟨true, ⟨true, true, true⟩⟩ false).ble = false ∧
    runs_handshake (auto_disconnect ⟨true, ⟨true, true, true⟩⟩ false) = false ∧
    (transport_disconnect ⟨true, ⟨true, true, true⟩⟩).initialized = true ∧
    runs_handshake (transport_disconnect ⟨true, ⟨true, true, true⟩⟩) = false ∧
    (client_disconnect ⟨true, ⟨true, true, true⟩⟩ false).1.initialized = false := by
  decide

/-- C10: `SolamagicBleClient.disconnect` never propagates an error to
the caller — a transport failure is only logged — and on return the
auto-disconnect timer is cancelled and the client reference cleared,
from every starting state, whether or not the underlying transport
disconnect succeeded. -/
theorem C10_disconnect_clean (s : BleState) (transportFails : Bool) :
    (ble_disconnect s transportFails).raised = false ∧
    (ble_disconnect s transportFails).state.timerArmed = false ∧
    (ble_disconnect s transportFails).state.clientSet = false := by
  obtain ⟨cs, ic, ta⟩ := s
  cases transportFails <;> cases cs <;> cases ic <;> cases ta <;>
    simp [ble_disconnect, connectedNow]

end Solamagic
